import Mathlib

/-!
Verification of the Jadard JD9365TN DSI panel driver
(`src/panel-jadard-jd9365tn.c`).

The driver is embedded shallowly: each lifecycle hook becomes a pure
function producing the list of externally observable events (GPIO
writes, sleeps, command-bus transactions) together with its integer
return status.  Bus-transaction outcomes are supplied by an
environment `env : Nat → Int` giving the status of the n-th fallible
bus call of one accumulated-error context (`0` = success, nonzero =
error code).
-/

namespace Jadard

/-- The four GPIO lines held by `struct jadard`. -/
inductive Gpio where
  | reset
  | vdd
  | vccio
  | dbg
deriving DecidableEq, Repr

/-- Externally observable events of the driver. -/
inductive Event where
  /-- `gpiod_set_value(line, value)` -/
  | setGpio (line : Gpio) (value : Nat)
  /-- `msleep(ms)` (also `mipi_dsi_msleep`) -/
  | msleep (ms : Nat)
  /-- `usleep_range(lo, hi)` -/
  | usleepRange (lo hi : Nat)
  /-- `mipi_dsi_dcs_write_seq_multi(ctx, cmd, payload...)` -/
  | dcsWrite (cmd : Nat) (payload : List Nat)
  /-- `mipi_dsi_dcs_nop(dsi)` -/
  | dcsNop
  /-- `mipi_dsi_dcs_set_display_off_multi(ctx)` -/
  | setDisplayOff
  /-- `mipi_dsi_dcs_enter_sleep_mode_multi(ctx)` -/
  | enterSleep
  /-- `mipi_dsi_dcs_exit_sleep_mode_multi(ctx)` -/
  | exitSleep
  /-- `mipi_dsi_dcs_set_display_on_multi(ctx)` -/
  | setDisplayOn
  /-- `mipi_dsi_dcs_set_tear_on_multi(ctx, mode)` -/
  | setTearOn (mode : Nat)
deriving DecidableEq, Repr

/-- One operation issued through a `mipi_dsi_multi_context`. -/
inductive BusOp where
  | write (cmd : Nat) (payload : List Nat)
  | tearOn (mode : Nat)
  | exitSleep
  | displayOn
  | displayOff
  | enterSleep
  /-- `mipi_dsi_msleep` inside a multi-context sequence. -/
  | sleep (ms : Nat)
deriving DecidableEq, Repr

/-- The event an operation emits on the trace. -/
def BusOp.event : BusOp → Event
  | .write cmd payload => .dcsWrite cmd payload
  | .tearOn mode => .setTearOn mode
  | .exitSleep => .exitSleep
  | .displayOn => .setDisplayOn
  | .displayOff => .setDisplayOff
  | .enterSleep => .enterSleep
  | .sleep ms => .msleep ms

/-- Whether the operation is a fallible bus transaction (consumes one
outcome from the environment), as opposed to a plain sleep. -/
def BusOp.fallible : BusOp → Bool
  | .sleep _ => false
  | _ => true

/-- State of one `mipi_dsi_multi_context` run: the accumulated error,
the index of the next fallible bus call, and the emitted trace. -/
structure BusState where
  accum_err : Int
  idx : Nat
  trace : List Event
deriving Repr

/-- The context at the start of a sequence:
`struct mipi_dsi_multi_context dsi_ctx = { .dsi = ... }`. -/
def BusState.init : BusState := ⟨0, 0, []⟩

/-- Modelled from the spec: the `mipi_dsi_*_multi` helpers and
`mipi_dsi_msleep` live in the DRM core, not in this repository.  Per
the spec's accumulated-error-context description, every write of the
sequence is still issued best-effort after a failure, and only the
first error is recorded ("first error wins"); `mipi_dsi_msleep`
delays are part of the sequence. -/
def busStep (env : Nat → Int) (s : BusState) (op : BusOp) : BusState :=
  match op with
  | .sleep ms => { s with trace := s.trace ++ [Event.msleep ms] }
  | _ =>
    let ret := env s.idx
    { accum_err := if s.accum_err ≠ 0 then s.accum_err else ret,
      idx := s.idx + 1,
      trace := s.trace ++ [op.event] }

/-- Run a whole sequence of operations through one context. -/
def busRun (env : Nat → Int) (ops : List BusOp) (s : BusState) : BusState :=
  ops.foldl (busStep env) s

/-- `enum mipi_dsi_pixel_format`. -/
inductive MipiPixelFormat where
  | rgb888
  | rgb666
  | rgb666_packed
  | rgb565
deriving DecidableEq, Repr

/-- `struct drm_display_mode` (the fields set by this driver). -/
structure DrmDisplayMode where
  clock : Nat
  hdisplay : Nat
  hsync_start : Nat
  hsync_end : Nat
  htotal : Nat
  vdisplay : Nat
  vsync_start : Nat
  vsync_end : Nat
  vtotal : Nat
  width_mm : Nat
  height_mm : Nat
  /-- bitmask: `DRM_MODE_TYPE_DRIVER | DRM_MODE_TYPE_PREFERRED` -/
  type : Nat
deriving DecidableEq, Repr

/-- `struct jadard_panel_desc`.  The `init` function pointer becomes a
function from the bus environment and the `complex_dbg_pattern`
module parameter to the emitted trace and return status. -/
structure JadardPanelDesc where
  mode : DrmDisplayMode
  lanes : Nat
  format : MipiPixelFormat
  init : (Nat → Int) → Int → List Event × Int
  lp11_before_reset : Bool
  reset_before_power_off_vcioo : Bool
  vcioo_to_lp11_delay_ms : Nat
  lp11_to_reset_delay_ms : Nat
  backlight_off_to_display_off_delay_ms : Nat
  display_off_to_enter_sleep_delay_ms : Nat
  enter_sleep_to_reset_down_delay_ms : Nat

/-- `jadard_disable`: optional delay, display off, optional delay,
enter sleep, optional delay; returns `dsi_ctx.accum_err`. -/
def disableOps (desc : JadardPanelDesc) : List BusOp :=
  (if desc.backlight_off_to_display_off_delay_ms ≠ 0 then
    [BusOp.sleep desc.backlight_off_to_display_off_delay_ms] else [])
  ++ [BusOp.displayOff]
  ++ (if desc.display_off_to_enter_sleep_delay_ms ≠ 0 then
    [BusOp.sleep desc.display_off_to_enter_sleep_delay_ms] else [])
  ++ [BusOp.enterSleep]
  ++ (if desc.enter_sleep_to_reset_down_delay_ms ≠ 0 then
    [BusOp.sleep desc.enter_sleep_to_reset_down_delay_ms] else [])

def jadard_disable (desc : JadardPanelDesc) (env : Nat → Int) :
    List Event × Int :=
  let s := busRun env (disableOps desc) BusState.init
  (s.trace, s.accum_err)

/-- `jadard_prepare`: raise vccio and vdd, optional settle delay,
optional LP-11 nop (early return on its failure), optional delay,
reset low/high/low pulse with 5/10/130 ms sleeps, then the
descriptor's init routine.  `nopRet` is the status the bus transport
returns for `mipi_dsi_dcs_nop` if it is issued. -/
def jadard_prepare (desc : JadardPanelDesc) (nopRet : Int)
    (env : Nat → Int) (cdp : Int) : List Event × Int :=
  let pre : List Event :=
    [Event.setGpio Gpio.vccio 1, Event.setGpio Gpio.vdd 1]
    ++ (if desc.vcioo_to_lp11_delay_ms ≠ 0 then
      [Event.msleep desc.vcioo_to_lp11_delay_ms] else [])
  let nopT : List Event := if desc.lp11_before_reset then [Event.dcsNop] else []
  if desc.lp11_before_reset ∧ nopRet ≠ 0 then
    (pre ++ nopT, nopRet)
  else
    let resetT : List Event :=
      (if desc.lp11_to_reset_delay_ms ≠ 0 then
        [Event.msleep desc.lp11_to_reset_delay_ms] else [])
      ++ [Event.setGpio Gpio.reset 0, Event.msleep 5,
          Event.setGpio Gpio.reset 1, Event.msleep 10,
          Event.setGpio Gpio.reset 0, Event.msleep 130]
    let r := desc.init env cdp
    if r.2 ≠ 0 then (pre ++ nopT ++ resetT ++ r.1, r.2)
    else (pre ++ nopT ++ resetT ++ r.1, 0)

/-- `jadard_unprepare`: reset low, 120 ms, optional extra reset pulse
with jittered 1–2 ms wait, then vdd and vccio low; always returns 0. -/
def jadard_unprepare (desc : JadardPanelDesc) : List Event × Int :=
  ([Event.setGpio Gpio.reset 0, Event.msleep 120]
   ++ (if desc.reset_before_power_off_vcioo then
     [Event.setGpio Gpio.reset 1, Event.usleepRange 1000 2000] else [])
   ++ [Event.setGpio Gpio.vdd 0, Event.setGpio Gpio.vccio 0], 0)

/-- The register writes of `shenzen_z34014_p30_365t_y1_init_cmds`,
transcribed verbatim from the source. -/
def shenzenInitWrites : List BusOp :=
  [ BusOp.write 0xDF [0x90, 0x69, 0xF9],
    BusOp.write 0xDE [0x00],
    BusOp.write 0xCC [0x31],
    BusOp.write 0xB2 [0x01, 0x23, 0x60, 0x88, 0x24, 0x5A, 0x07],
    BusOp.write 0xBB [0x02, 0x1A, 0x33, 0x5A, 0x3C, 0x44, 0x44],
    BusOp.write 0xBD [0x00, 0xD0, 0x00],
    BusOp.write 0xBF [0x50, 0x3C, 0x33, 0xC3],
    BusOp.write 0xC0 [0x01, 0xAD, 0x01, 0xAD],
    BusOp.write 0xCB [0x7F, 0x7A, 0x75, 0x6C, 0x63, 0x64, 0x57, 0x5C,
      0x46, 0x5C, 0x57, 0x53, 0x6B, 0x54, 0x56, 0x44, 0x3E, 0x2F,
      0x1D, 0x14, 0x10, 0x7F, 0x7A, 0x75, 0x6C, 0x63, 0x64, 0x57,
      0x5C, 0x46, 0x5C, 0x57, 0x53, 0x6B, 0x54, 0x56, 0x44, 0x3E,
      0x2F, 0x1D, 0x14, 0x10, 0x00],
    BusOp.write 0xC3 [0x3B, 0x01, 0x00, 0x03, 0x08, 0x08, 0x4C, 0x05,
      0x4E, 0x05, 0x4E, 0x01, 0x48, 0x01, 0x48, 0x01, 0x48, 0x06,
      0x4A, 0x06, 0x09, 0x06, 0x09, 0x06, 0x09],
    BusOp.write 0xC4 [0x01, 0x00, 0x03, 0x08, 0x08, 0x4C, 0x05, 0x4E,
      0x05, 0x4E, 0x01, 0x48, 0x01, 0x48, 0x01, 0x48, 0x06, 0x4A,
      0x06, 0x09, 0x06, 0x09, 0x06, 0x09],
    BusOp.write 0xC5 [0x03, 0x03, 0x08, 0x08, 0x4C, 0x05, 0x4E, 0x05,
      0x4E, 0x01, 0x48, 0x01, 0x48, 0x01, 0x48, 0x06, 0x4A, 0x06,
      0x09, 0x06, 0x09, 0x06, 0x09],
    BusOp.write 0xC6 [0x00, 0x59, 0x00, 0xB4, 0x00, 0x13, 0x28, 0x82,
      0x00, 0x00, 0x00, 0x01, 0x00, 0x01, 0x00, 0x00, 0x00, 0x00,
      0x00, 0x01, 0x00, 0x00, 0x01],
    BusOp.write 0xC8 [0x2B, 0x1C, 0x78],
    BusOp.write 0xCD [0x06, 0x02],
    BusOp.write 0xCE [0x00, 0x00, 0x00, 0x0C, 0x0C, 0x0C, 0x0C, 0x0C,
      0x0C, 0x0C, 0x0C, 0x00, 0x00, 0x00, 0x00, 0x00, 0x00, 0x00,
      0x00, 0x00, 0x00, 0x00, 0x00],
    BusOp.write 0xCF [0x00, 0x00, 0x00, 0x30, 0x30, 0x30, 0x30, 0x30,
      0x30, 0x30, 0x30, 0x00, 0x00, 0x00, 0x00, 0x00, 0x00, 0x00,
      0x00, 0x00, 0x00, 0x00, 0x00, 0x00, 0x00, 0x00, 0x00, 0x00,
      0x00, 0x00, 0x00, 0x00, 0x00, 0x00, 0x00, 0x00, 0x00, 0x00,
      0x00, 0x00, 0x00, 0x00, 0x00, 0x00, 0x00, 0xFF, 0xFF, 0xFF,
      0xFF, 0xFF, 0x3F],
    BusOp.write 0xD0 [0x00, 0x1F, 0x1F, 0x11, 0x24, 0x24, 0x0B, 0x09,
      0x07, 0x05, 0x01, 0x1F, 0x1F, 0x1F, 0x1F, 0x1F, 0x1F, 0x1F,
      0x1F, 0x1F, 0x1F, 0x1F, 0x1F, 0x00, 0x00, 0x00, 0x00, 0x00,
      0x00],
    BusOp.write 0xD1 [0x00, 0x1F, 0x1F, 0x10, 0x24, 0x24, 0x0A, 0x08,
      0x06, 0x04, 0x00, 0x1F, 0x1F, 0x1F, 0x1F, 0x1F, 0x1F, 0x1F,
      0x1F, 0x1F, 0x1F, 0x1F, 0x1F, 0x00, 0x00, 0x00, 0x00, 0x00,
      0x00],
    BusOp.write 0xD2 [0x00, 0x1F, 0x1F, 0x00, 0x24, 0x24, 0x08, 0x0A,
      0x04, 0x06, 0x10, 0x1F, 0x1F, 0x1F, 0x1F, 0x1F, 0x1F, 0x1F,
      0x1F, 0x1F, 0x1F, 0x1F, 0x1F],
    BusOp.write 0xD3 [0x00, 0x1F, 0x1F, 0x00, 0x24, 0x24, 0x09, 0x0B,
      0x05, 0x07, 0x11, 0x1F, 0x1F, 0x1F, 0x1F, 0x1F, 0x1F, 0x1F,
      0x1F, 0x1F, 0x1F, 0x1F, 0x1F],
    BusOp.write 0xD4 [0x00, 0x20, 0x0C, 0x00, 0x0A, 0x00, 0x0C, 0x00,
      0x00, 0x00, 0x00, 0x00, 0x00, 0x00, 0x00, 0x00, 0x00, 0x06,
      0x03, 0x03, 0x00, 0x81, 0x04, 0x4C, 0x00, 0x00, 0x00, 0x00,
      0x00, 0x00, 0x00, 0x00, 0x00, 0x00, 0x00, 0x00, 0x00, 0x04,
      0x00, 0x00, 0x00, 0x00, 0x00, 0x00, 0x00, 0x00, 0x00, 0x00,
      0x00, 0x00, 0x00, 0x80, 0x09, 0x00, 0x0A, 0x06, 0x55, 0x06,
      0x0D, 0x00, 0x00, 0x00, 0x00, 0x00, 0x00, 0x00, 0x00, 0x02,
      0x00, 0x00, 0x00, 0x00, 0x00, 0x00, 0x00, 0x00, 0x00, 0x00,
      0x00, 0x40, 0x00, 0x00, 0x00, 0x00, 0x00, 0x20, 0x00, 0x00],
    BusOp.write 0xD5 [0x02, 0x10, 0x01, 0x00, 0x00, 0x00, 0x00, 0x00,
      0x00, 0xE0, 0x00, 0x00, 0x00, 0x07, 0x32, 0x5A, 0x00, 0x00,
      0x05, 0x00, 0x01, 0x00, 0x30, 0x74, 0x00, 0x0E, 0x00, 0x08,
      0x00, 0x71, 0x20, 0x04, 0x10, 0x04, 0x06, 0x00, 0x00, 0x00,
      0x00, 0x00, 0x00, 0x00, 0x00, 0xFF, 0xFF, 0x00, 0x00, 0x1F,
      0xFF, 0x00, 0x00, 0x00, 0x1F, 0xFF, 0x00, 0xFF, 0xFF, 0xFF,
      0xFF, 0xFF, 0xFF, 0x00],
    BusOp.write 0xD7 [0x00, 0x34, 0x34, 0x34, 0x34, 0x34, 0x34, 0x34,
      0x34, 0x34, 0x34, 0x34, 0x34, 0x34, 0x34, 0x34, 0x34],
    BusOp.write 0xDE [0x01],
    BusOp.write 0xB9 [0x00, 0xFF, 0xFF, 0x04],
    BusOp.write 0xC7 [0x1B, 0x14, 0x0E],
    BusOp.write 0xDE [0x02],
    BusOp.write 0xBB [0x00, 0x00, 0x00, 0x00, 0x00, 0x68, 0x69],
    BusOp.write 0xBD [0x1B],
    BusOp.write 0xC1 [0x00, 0x40, 0x00, 0x02, 0x02, 0x02, 0x02, 0x7F,
      0x00, 0x00, 0x00, 0x00],
    BusOp.write 0xC3 [0x20, 0xFF],
    BusOp.write 0xC4 [0x00, 0x11, 0x07, 0x00, 0x02],
    BusOp.write 0xC6 [0x49, 0x00],
    BusOp.write 0xE5 [0x00, 0xE6, 0xE5, 0x02, 0x27, 0x42, 0x27, 0x42,
      0x09, 0x04, 0x00, 0x40, 0x00, 0x21, 0x00, 0x00, 0x00, 0x00,
      0x00, 0x00, 0x00, 0x00, 0x00, 0x00],
    BusOp.write 0xE6 [0x10, 0x09, 0xAD, 0x00, 0x00, 0x00],
    BusOp.write 0xEC [0x07, 0x07, 0x40, 0x00, 0x22, 0x02, 0x00, 0xFF,
      0x08, 0x7C, 0x00, 0x00, 0x00, 0x00],
    BusOp.write 0xDE [0x03],
    BusOp.write 0xD1 [0x00, 0x00, 0x21, 0xFF, 0x00],
    BusOp.write 0xDE [0x00] ]

/-- `MIPI_DSI_DCS_TEAR_MODE_VBLANK` (first value of the enum). -/
def MIPI_DSI_DCS_TEAR_MODE_VBLANK : Nat := 0

/-- The tail of the init sequence after the register writes:
tear on (then 30 ms), exit sleep (then 120 ms), display on
(then 10 ms). -/
def shenzenInitTail : List BusOp :=
  [ BusOp.tearOn MIPI_DSI_DCS_TEAR_MODE_VBLANK, BusOp.sleep 30,
    BusOp.exitSleep, BusOp.sleep 120,
    BusOp.displayOn, BusOp.sleep 10 ]

/-- All bus operations of the init routine, in source order. -/
def shenzenInitOps : List BusOp := shenzenInitWrites ++ shenzenInitTail

/-- `shenzen_z34014_p30_365t_y1_init_cmds`: one unconditional dbg
pulse, an extra dbg pulse when `complex_dbg_pattern` (`cdp`) is
nonzero, then the whole bus sequence through one multi-context;
returns `dsi_ctx.accum_err`. -/
def shenzen_z34014_p30_365t_y1_init_cmds (env : Nat → Int) (cdp : Int) :
    List Event × Int :=
  let dbgT : List Event :=
    [Event.setGpio Gpio.dbg 1, Event.usleepRange 1000 2000,
     Event.setGpio Gpio.dbg 0]
  let extraT : List Event :=
    if cdp ≠ 0 then
      [Event.usleepRange 1000 2000, Event.setGpio Gpio.dbg 1,
       Event.usleepRange 1000 2000, Event.setGpio Gpio.dbg 0]
    else []
  let s := busRun env shenzenInitOps BusState.init
  (dbgT ++ extraT ++ s.trace, s.accum_err)

/-- `DRM_MODE_TYPE_DRIVER | DRM_MODE_TYPE_PREFERRED` = (1<<6) | (1<<3). -/
def DRM_MODE_TYPE_DRIVER_PREFERRED : Nat := 64 + 8

/-- `shenzen_z34014_p30_365t_y1_desc`: the single shipped descriptor.
Fields not named in the C initializer are zero/false, as C static
initialization leaves them. -/
def shenzen_z34014_p30_365t_y1_desc : JadardPanelDesc where
  mode :=
    { clock := (480 + 20 + 20 + 40) * (1080 + 180 + 2 + 18) * 60 / 1000,
      hdisplay := 480,
      hsync_start := 480 + 20,
      hsync_end := 480 + 20 + 20,
      htotal := 480 + 20 + 20 + 40,
      vdisplay := 1080,
      vsync_start := 1080 + 180,
      vsync_end := 1080 + 180 + 2,
      vtotal := 1080 + 180 + 2 + 18,
      width_mm := 42,
      height_mm := 95,
      type := DRM_MODE_TYPE_DRIVER_PREFERRED }
  lanes := 2
  format := MipiPixelFormat.rgb888
  init := shenzen_z34014_p30_365t_y1_init_cmds
  lp11_before_reset := false
  reset_before_power_off_vcioo := false
  vcioo_to_lp11_delay_ms := 0
  lp11_to_reset_delay_ms := 0
  backlight_off_to_display_off_delay_ms := 0
  display_off_to_enter_sleep_delay_ms := 0
  enter_sleep_to_reset_down_delay_ms := 0

/-- The DSI device configuration set by `jadard_dsi_probe`
(mode flags as individual booleans, format and lane count from the
descriptor). -/
structure DsiConfig where
  mode_video : Bool
  mode_video_burst : Bool
  mode_no_eot_packet : Bool
  mode_lpm : Bool
  format : MipiPixelFormat
  lanes : Nat
deriving DecidableEq, Repr

/-- `jadard_dsi_probe` lines setting up the DSI device:
`dsi->mode_flags = MIPI_DSI_MODE_VIDEO | MIPI_DSI_MODE_VIDEO_BURST |
MIPI_DSI_MODE_NO_EOT_PACKET | MIPI_DSI_MODE_LPM;
dsi->format = desc->format; dsi->lanes = desc->lanes;`. -/
def probeDsiConfig (desc : JadardPanelDesc) : DsiConfig where
  mode_video := true
  mode_video_burst := true
  mode_no_eot_packet := true
  mode_lpm := true
  format := desc.format
  lanes := desc.lanes

/-- The connector state touched by `jadard_get_modes`. -/
structure Connector where
  probed_modes : List DrmDisplayMode
  width_mm : Nat
  height_mm : Nat
deriving DecidableEq, Repr

/-- `jadard_get_modes`: duplicate the descriptor's mode (`dupOk`
models whether `drm_mode_duplicate`'s allocation succeeds), add it to
the connector, copy the physical size; returns 1, or -ENOMEM (-12) on
allocation failure with nothing added. -/
def jadard_get_modes (desc : JadardPanelDesc) (dupOk : Bool)
    (conn : Connector) : Connector × Int :=
  if dupOk then
    ({ probed_modes := conn.probed_modes ++ [desc.mode],
       width_mm := desc.mode.width_mm,
       height_mm := desc.mode.height_mm }, 1)
  else
    (conn, -12)

/-! ### Observation functions on traces -/

/-- Whether an event writes the reset line. -/
def touchesReset : Event → Bool
  | .setGpio .reset _ => true
  | _ => false

/-- Whether an event is the zero-payload `mipi_dsi_dcs_nop` transaction. -/
def isNop : Event → Bool
  | .dcsNop => true
  | _ => false

/-- Whether an event is a rising edge on the dbg line (start of a
diagnostic pulse). -/
def isDbgRise : Event → Bool
  | .setGpio .dbg 1 => true
  | _ => false

/-- Whether an event is a whole-millisecond timed sleep. -/
def isMsleep : Event → Bool
  | .msleep _ => true
  | _ => false

/-- Whether an event is a DCS convenience "setting" call (tear
on/off, sleep in/out, display on/off), as opposed to a raw register
write. -/
def isSettingCall : Event → Bool
  | .setTearOn _ => true
  | .exitSleep => true
  | .setDisplayOn => true
  | .setDisplayOff => true
  | .enterSleep => true
  | _ => false

/-- Number of diagnostic pulses (rising edges on dbg) in a trace. -/
def dbgRises (t : List Event) : Nat := t.countP isDbgRise

/-- Number of timed millisecond sleeps in a trace. -/
def timedSleeps (t : List Event) : Nat := t.countP isMsleep

/-- Number of DCS setting calls in a trace. -/
def settingCalls (t : List Event) : Nat := t.countP isSettingCall

/-- The value an event writes to GPIO line `l`, if any. -/
def gpioVal (l : Gpio) : Event → Option Nat
  | .setGpio l' v => if l' = l then some v else none
  | _ => none

/-- First write to line `l` in a (reversed) trace. -/
def lastGpioRev (l : Gpio) : List Event → Option Nat
  | [] => none
  | e :: rest =>
    match gpioVal l e with
    | some v => some v
    | none => lastGpioRev l rest

/-- The last value written to GPIO line `l` in a trace, if the line
was written at all. -/
def lastGpio (l : Gpio) (t : List Event) : Option Nat :=
  lastGpioRev l t.reverse

/-! ### Helper lemmas -/

lemma busStep_trace (env : Nat → Int) (s : BusState) (op : BusOp) :
    (busStep env s op).trace = s.trace ++ [op.event] := by
  cases op <;> rfl

lemma busStep_accum_of_ne (env : Nat → Int) (s : BusState) (op : BusOp)
    (h : s.accum_err ≠ 0) : (busStep env s op).accum_err = s.accum_err := by
  cases op <;> simp [busStep, h]

/-- Every operation of the sequence is issued, in order: the trace of
a run is the event list of the operations. -/
lemma busRun_trace (env : Nat → Int) (ops : List BusOp) (s : BusState) :
    (busRun env ops s).trace = s.trace ++ ops.map BusOp.event := by
  induction ops generalizing s with
  | nil => simp [busRun]
  | cons op rest ih =>
    show (busRun env rest (busStep env s op)).trace = _
    rw [ih, busStep_trace]
    simp

/-- Once an error is recorded it is never overwritten. -/
lemma busRun_accum_of_ne (env : Nat → Int) (ops : List BusOp) (s : BusState)
    (h : s.accum_err ≠ 0) : (busRun env ops s).accum_err = s.accum_err := by
  induction ops generalizing s with
  | nil => rfl
  | cons op rest ih =>
    show (busRun env rest (busStep env s op)).accum_err = _
    rw [ih _ (by rw [busStep_accum_of_ne env s op h]; exact h),
      busStep_accum_of_ne env s op h]

/-- If the `k`-th fallible outcome is the first nonzero one, the run
records exactly it. -/
lemma busRun_accum_first (env : Nat → Int) (ops : List BusOp) (s : BusState)
    (k : Nat) (hf : ∀ op ∈ ops, op.fallible = true)
    (hacc : s.accum_err = 0) (hk : k < ops.length)
    (h0 : ∀ i, i < k → env (s.idx + i) = 0)
    (hke : env (s.idx + k) ≠ 0) :
    (busRun env ops s).accum_err = env (s.idx + k) := by
  induction ops generalizing s k with
  | nil => exact absurd hk (Nat.not_lt_zero k)
  | cons op rest ih =>
    have hopf : op.fallible = true := hf op (by simp)
    have hstep : busStep env s op =
        { accum_err := env s.idx, idx := s.idx + 1,
          trace := s.trace ++ [op.event] } := by
      cases op
      case sleep => simp [BusOp.fallible] at hopf
      all_goals simp [busStep, hacc, BusOp.event]
    show (busRun env rest (busStep env s op)).accum_err = _
    cases k with
    | zero =>
      have hne : env s.idx ≠ 0 := by simpa using hke
      rw [busRun_accum_of_ne env rest _ (by rw [hstep]; exact hne), hstep]
      simp
    | succ j =>
      have h00 : env s.idx = 0 := by
        have := h0 0 (Nat.succ_pos j)
        simpa using this
      have := ih (busStep env s op) j
        (fun o ho => hf o (List.mem_cons_of_mem op ho))
        (by rw [hstep]; exact h00)
        (by simpa using hk)
        (by
          intro i hi
          have := h0 (i + 1) (by omega)
          rw [hstep]
          simpa [Nat.add_assoc, Nat.add_comm 1 i] using this)
        (by
          rw [hstep]
          simpa [Nat.add_assoc, Nat.add_comm 1 j] using hke)
      rw [this, hstep]
      simp [Nat.add_assoc, Nat.add_comm 1 j]

/-- No bus operation emits a GPIO event. -/
lemma busOp_event_ne_setGpio (op : BusOp) (l : Gpio) (v : Nat) :
    op.event ≠ Event.setGpio l v := by
  cases op <;> simp [BusOp.event]

/-- No bus operation emits the `dcsNop` event (the nop in `prepare`
is issued outside any multi-context). -/
lemma busOp_event_ne_nop (op : BusOp) : op.event ≠ Event.dcsNop := by
  cases op <;> simp [BusOp.event]

lemma lastGpioRev_append (l : Gpio) (a b : List Event)
    (h : ∀ e ∈ a, gpioVal l e = none) :
    lastGpioRev l (a ++ b) = lastGpioRev l b := by
  induction a with
  | nil => rfl
  | cons e rest ih =>
    have he : gpioVal l e = none := h e (by simp)
    simp only [List.cons_append, lastGpioRev, he]
    exact ih fun e' he' => h e' (by simp [he'])

/-- `jadard_prepare`, when the optional LP-11 nop does not fail,
produces the full power-up trace followed by the init routine's
trace, and returns the init routine's status. -/
lemma jadard_prepare_eq (desc : JadardPanelDesc) (nopRet : Int)
    (env : Nat → Int) (cdp : Int) (h : nopRet = 0) :
    jadard_prepare desc nopRet env cdp =
      ([Event.setGpio Gpio.vccio 1, Event.setGpio Gpio.vdd 1]
       ++ (if desc.vcioo_to_lp11_delay_ms ≠ 0 then
         [Event.msleep desc.vcioo_to_lp11_delay_ms] else [])
       ++ (if desc.lp11_before_reset then [Event.dcsNop] else [])
       ++ (if desc.lp11_to_reset_delay_ms ≠ 0 then
         [Event.msleep desc.lp11_to_reset_delay_ms] else [])
       ++ [Event.setGpio Gpio.reset 0, Event.msleep 5,
           Event.setGpio Gpio.reset 1, Event.msleep 10,
           Event.setGpio Gpio.reset 0, Event.msleep 130]
       ++ (desc.init env cdp).1,
       (desc.init env cdp).2) := by
  subst h
  rcases hr : desc.init env cdp with ⟨tr, rc⟩
  by_cases h2 : rc = 0 <;>
    simp [jadard_prepare, hr, h2, List.append_assoc]

/-- The shipped init routine's trace: the diagnostic prefix followed
by the events of all bus operations, in order. -/
lemma shenzenInit_trace (env : Nat → Int) (cdp : Int) :
    (shenzen_z34014_p30_365t_y1_init_cmds env cdp).1 =
      ([Event.setGpio Gpio.dbg 1, Event.usleepRange 1000 2000,
        Event.setGpio Gpio.dbg 0]
       ++ (if cdp ≠ 0 then
         [Event.usleepRange 1000 2000, Event.setGpio Gpio.dbg 1,
          Event.usleepRange 1000 2000, Event.setGpio Gpio.dbg 0] else []))
      ++ shenzenInitOps.map BusOp.event := by
  simp [shenzen_z34014_p30_365t_y1_init_cmds, busRun_trace,
    BusState.init, List.append_assoc]

/-! ### Claim theorems -/

/-- C1: For every descriptor, `jadard_prepare` asserts both
power-enable lines (vccio then vdd) before any write to the reset
line — everything between the power-up and the reset pulse is delays
and the optional nop, none of which touches reset — and then drives
reset low, high, low, sleeping exactly 5 ms, 10 ms and 130 ms after
the three transitions, before invoking the init routine (whose
events come last).  The optional LP-11 nop is assumed not to fail
(`nopRet = 0`); its failure path is the subject of the early return,
not of this claim. -/
theorem prepare_power_before_reset_pulse
    (desc : JadardPanelDesc) (nopRet : Int) (env : Nat → Int) (cdp : Int)
    (h : nopRet = 0) :
    (jadard_prepare desc nopRet env cdp).1 =
      [Event.setGpio Gpio.vccio 1, Event.setGpio Gpio.vdd 1]
      ++ ((if desc.vcioo_to_lp11_delay_ms ≠ 0 then
          [Event.msleep desc.vcioo_to_lp11_delay_ms] else [])
        ++ (if desc.lp11_before_reset then [Event.dcsNop] else [])
        ++ (if desc.lp11_to_reset_delay_ms ≠ 0 then
          [Event.msleep desc.lp11_to_reset_delay_ms] else []))
      ++ ([Event.setGpio Gpio.reset 0, Event.msleep 5,
           Event.setGpio Gpio.reset 1, Event.msleep 10,
           Event.setGpio Gpio.reset 0, Event.msleep 130]
        ++ (desc.init env cdp).1)
    ∧ ((if desc.vcioo_to_lp11_delay_ms ≠ 0 then
          [Event.msleep desc.vcioo_to_lp11_delay_ms] else [])
        ++ (if desc.lp11_before_reset then [Event.dcsNop] else [])
        ++ (if desc.lp11_to_reset_delay_ms ≠ 0 then
          [Event.msleep desc.lp11_to_reset_delay_ms] else [])).all
        (fun e => ! touchesReset e) = true := by
  constructor
  · rw [jadard_prepare_eq desc nopRet env cdp h]
    simp [List.append_assoc]
  · split_ifs <;> simp [touchesReset]

/-- Witness for C1 at the shipped descriptor, a succeeding nop, an
all-success bus environment and `complex_dbg_pattern = 0`. -/
theorem prepare_power_before_reset_pulse_w :
    (jadard_prepare shenzen_z34014_p30_365t_y1_desc 0 (fun _ => 0) 0).1 =
      [Event.setGpio Gpio.vccio 1, Event.setGpio Gpio.vdd 1]
      ++ ([Event.setGpio Gpio.reset 0, Event.msleep 5,
           Event.setGpio Gpio.reset 1, Event.msleep 10,
           Event.setGpio Gpio.reset 0, Event.msleep 130]
        ++ (shenzen_z34014_p30_365t_y1_desc.init (fun _ => 0) 0).1) := by
  have h := prepare_power_before_reset_pulse
    shenzen_z34014_p30_365t_y1_desc 0 (fun _ => 0) 0 rfl
  simpa [shenzen_z34014_p30_365t_y1_desc] using h.1

/-- C2: first-error-wins accumulation.  For a sequence of fallible
bus operations run through one accumulated-error context, if the
`k`-th operation is the first to fail, all operations are still
issued (the trace lists every one, in order) and the status at the
end is exactly the `k`-th outcome, not a later error and not
success. -/
theorem multi_context_first_error_wins
    (ops : List BusOp) (env : Nat → Int) (k : Nat)
    (hf : ∀ op ∈ ops, op.fallible = true)
    (hk : k < ops.length)
    (h0 : ∀ i, i < k → env i = 0)
    (hke : env k ≠ 0) :
    (busRun env ops BusState.init).trace = ops.map BusOp.event
    ∧ (busRun env ops BusState.init).accum_err = env k := by
  constructor
  · simpa [BusState.init] using busRun_trace env ops BusState.init
  · have h := busRun_accum_first env ops BusState.init k hf rfl hk
      (by simpa [BusState.init] using h0)
      (by simpa [BusState.init] using hke)
    simpa [BusState.init] using h

/-- Witness for C2: three fallible operations, the second is the
first to fail (-7), the third would fail with a different error
(-9); all three are issued and -7 is returned. -/
theorem multi_context_first_error_wins_w :
    (busRun (fun i => if i = 0 then 0 else if i = 1 then -7 else -9)
        [BusOp.displayOff, BusOp.enterSleep, BusOp.write 0xDE [0x00]]
        BusState.init).trace =
      [Event.setDisplayOff, Event.enterSleep, Event.dcsWrite 0xDE [0x00]]
    ∧ (busRun (fun i => if i = 0 then 0 else if i = 1 then -7 else -9)
        [BusOp.displayOff, BusOp.enterSleep, BusOp.write 0xDE [0x00]]
        BusState.init).accum_err = -7 := by
  have h := multi_context_first_error_wins
    [BusOp.displayOff, BusOp.enterSleep, BusOp.write 0xDE [0x00]]
    (fun i => if i = 0 then 0 else if i = 1 then -7 else -9) 1
    (by decide) (by decide)
    (by intro i hi; interval_cases i; rfl)
    (by decide)
  exact ⟨by simpa [BusOp.event] using h.1, by rw [h.2]; rfl⟩

/-- Counterexample to C3: with `complex_dbg_pattern = 0` and an
all-success bus, the init routine issues one diagnostic pulse on the
dbg line (the unconditional pulse at its start), not zero. -/
theorem init_dbg_pulse_count_cdp_zero :
    dbgRises ((shenzen_z34014_p30_365t_y1_init_cmds (fun _ => 0) 0).1) = 1 := by
  decide

/-- C3 (amended): the init routine always issues one diagnostic
pulse on the dbg line before the register sequence; with
`complex_dbg_pattern ≠ 0` it issues exactly one extra pulse (two in
total, each held 1–2 ms), and all pulses precede the register
sequence, which itself puts nothing on the dbg line. -/
theorem init_dbg_pulses (env : Nat → Int) (cdp : Int) :
    (shenzen_z34014_p30_365t_y1_init_cmds env cdp).1 =
      ([Event.setGpio Gpio.dbg 1, Event.usleepRange 1000 2000,
        Event.setGpio Gpio.dbg 0]
       ++ (if cdp ≠ 0 then
         [Event.usleepRange 1000 2000, Event.setGpio Gpio.dbg 1,
          Event.usleepRange 1000 2000, Event.setGpio Gpio.dbg 0] else []))
      ++ shenzenInitOps.map BusOp.event
    ∧ dbgRises (shenzenInitOps.map BusOp.event) = 0
    ∧ dbgRises ((shenzen_z34014_p30_365t_y1_init_cmds env cdp).1) =
        (if cdp = 0 then 1 else 2) := by
  have htr := shenzenInit_trace env cdp
  have hmap : dbgRises (shenzenInitOps.map BusOp.event) = 0 := by decide
  refine ⟨htr, hmap, ?_⟩
  rw [htr]
  unfold dbgRises at hmap ⊢
  rw [List.countP_append, List.countP_append, hmap]
  by_cases hc : cdp = 0 <;> simp [hc, isDbgRise]

/-- C4: `jadard_disable` sends "display off" strictly before "enter
sleep"; each configurable delay is inserted at its slot exactly when
its descriptor value is nonzero; and the accumulated bus status —
the first of the two command outcomes to be nonzero, else success —
is returned. -/
theorem disable_order_and_status (desc : JadardPanelDesc) (env : Nat → Int) :
    (jadard_disable desc env).1 =
      (if desc.backlight_off_to_display_off_delay_ms ≠ 0 then
        [Event.msleep desc.backlight_off_to_display_off_delay_ms] else [])
      ++ [Event.setDisplayOff]
      ++ (if desc.display_off_to_enter_sleep_delay_ms ≠ 0 then
        [Event.msleep desc.display_off_to_enter_sleep_delay_ms] else [])
      ++ [Event.enterSleep]
      ++ (if desc.enter_sleep_to_reset_down_delay_ms ≠ 0 then
        [Event.msleep desc.enter_sleep_to_reset_down_delay_ms] else [])
    ∧ (jadard_disable desc env).2 = (if env 0 ≠ 0 then env 0 else env 1) := by
  constructor
  · rw [show (jadard_disable desc env).1 =
        (busRun env (disableOps desc) BusState.init).trace from rfl,
      busRun_trace]
    unfold disableOps
    split_ifs <;> simp [BusOp.event, BusState.init]
  · rw [show (jadard_disable desc env).2 =
        (busRun env (disableOps desc) BusState.init).accum_err from rfl]
    unfold disableOps
    split_ifs <;> simp [busRun, busStep, BusState.init] <;>
      intro h <;> simp_all

/-- C5: `jadard_get_modes` on the shipped descriptor returns 1 and
adds exactly one mode (the descriptor's) whenever duplication
succeeds, setting the connector's physical size to the mode's
42 mm × 95 mm; exactly when duplication fails it returns -ENOMEM
(-12) and leaves the connector untouched. -/
theorem get_modes_spec (conn : Connector) (dupOk : Bool) :
    jadard_get_modes shenzen_z34014_p30_365t_y1_desc dupOk conn =
      (if dupOk then
        ({ probed_modes := conn.probed_modes
            ++ [shenzen_z34014_p30_365t_y1_desc.mode],
           width_mm := 42, height_mm := 95 }, 1)
       else (conn, -12))
    ∧ (jadard_get_modes shenzen_z34014_p30_365t_y1_desc dupOk conn).1.probed_modes.length
        = conn.probed_modes.length + (if dupOk then 1 else 0) := by
  cases dupOk <;>
    simp [jadard_get_modes, shenzen_z34014_p30_365t_y1_desc]

/-- C6: the single reported mode's numbers, the derived pixel clock,
and the probe-time DSI configuration (two lanes, 24-bit RGB, video
burst mode with no EOT packet and LPM commands). -/
theorem shenzen_mode_numbers :
    shenzen_z34014_p30_365t_y1_desc.mode.clock = 43008
    ∧ shenzen_z34014_p30_365t_y1_desc.mode.clock
        = (480 + 20 + 20 + 40) * (1080 + 180 + 2 + 18) * 60 / 1000
    ∧ shenzen_z34014_p30_365t_y1_desc.mode.hdisplay = 480
    ∧ shenzen_z34014_p30_365t_y1_desc.mode.hsync_start = 500
    ∧ shenzen_z34014_p30_365t_y1_desc.mode.hsync_end = 520
    ∧ shenzen_z34014_p30_365t_y1_desc.mode.htotal = 560
    ∧ shenzen_z34014_p30_365t_y1_desc.mode.vdisplay = 1080
    ∧ shenzen_z34014_p30_365t_y1_desc.mode.vsync_start = 1260
    ∧ shenzen_z34014_p30_365t_y1_desc.mode.vsync_end = 1262
    ∧ shenzen_z34014_p30_365t_y1_desc.mode.vtotal = 1280
    ∧ shenzen_z34014_p30_365t_y1_desc.mode.width_mm = 42
    ∧ shenzen_z34014_p30_365t_y1_desc.mode.height_mm = 95
    ∧ shenzen_z34014_p30_365t_y1_desc.lanes = 2
    ∧ shenzen_z34014_p30_365t_y1_desc.format = MipiPixelFormat.rgb888
    ∧ probeDsiConfig shenzen_z34014_p30_365t_y1_desc =
        ⟨true, true, true, true, MipiPixelFormat.rgb888, 2⟩ := by
  decide

/-- Counterexample to C7: the init sequence contains three timed
sleeps, not two — there is a 30 ms sleep after the tear-on call
before "exit sleep"/120 ms and "display on"/10 ms. -/
theorem init_timed_sleep_count_actual :
    timedSleeps ((shenzen_z34014_p30_365t_y1_init_cmds (fun _ => 0) 0).1) = 3 := by
  decide

/-- C7 (amended): the register writes are followed, at the tail and
in this order, by exactly three bus-level setting calls and exactly
three timed sleeps: tear-on (then 30 ms), exit sleep (then 120 ms),
display on (then 10 ms). -/
theorem init_tail_structure (env : Nat → Int) (cdp : Int) :
    (shenzen_z34014_p30_365t_y1_init_cmds env cdp).1 =
      ([Event.setGpio Gpio.dbg 1, Event.usleepRange 1000 2000,
        Event.setGpio Gpio.dbg 0]
       ++ (if cdp ≠ 0 then
         [Event.usleepRange 1000 2000, Event.setGpio Gpio.dbg 1,
          Event.usleepRange 1000 2000, Event.setGpio Gpio.dbg 0] else []))
      ++ (shenzenInitWrites.map BusOp.event
        ++ [Event.setTearOn MIPI_DSI_DCS_TEAR_MODE_VBLANK, Event.msleep 30,
            Event.exitSleep, Event.msleep 120,
            Event.setDisplayOn, Event.msleep 10])
    ∧ settingCalls ((shenzen_z34014_p30_365t_y1_init_cmds env cdp).1) = 3
    ∧ timedSleeps ((shenzen_z34014_p30_365t_y1_init_cmds env cdp).1) = 3 := by
  have htr : (shenzen_z34014_p30_365t_y1_init_cmds env cdp).1 =
      ([Event.setGpio Gpio.dbg 1, Event.usleepRange 1000 2000,
        Event.setGpio Gpio.dbg 0]
       ++ (if cdp ≠ 0 then
         [Event.usleepRange 1000 2000, Event.setGpio Gpio.dbg 1,
          Event.usleepRange 1000 2000, Event.setGpio Gpio.dbg 0] else []))
      ++ (shenzenInitWrites.map BusOp.event
        ++ [Event.setTearOn MIPI_DSI_DCS_TEAR_MODE_VBLANK, Event.msleep 30,
            Event.exitSleep, Event.msleep 120,
            Event.setDisplayOn, Event.msleep 10]) := by
    rw [shenzenInit_trace env cdp]
    simp [shenzenInitOps, shenzenInitTail, BusOp.event]
  have hsetW : settingCalls (shenzenInitWrites.map BusOp.event) = 0 := by decide
  have hslpW : timedSleeps (shenzenInitWrites.map BusOp.event) = 0 := by decide
  refine ⟨htr, ?_, ?_⟩ <;> rw [htr]
  · unfold settingCalls at hsetW ⊢
    rw [List.countP_append, List.countP_append, List.countP_append, hsetW]
    by_cases hc : cdp = 0 <;> simp [hc, isSettingCall]
  · unfold timedSleeps at hslpW ⊢
    rw [List.countP_append, List.countP_append, List.countP_append, hslpW]
    by_cases hc : cdp = 0 <;> simp [hc, isMsleep]

/-- C8: `jadard_unprepare` always returns success; it drives reset,
waits 120 ms, performs the extra reset pulse with a 1–2 ms jittered
wait exactly when the descriptor's reset-before-power-off flag is
set, and then de-asserts vdd and vccio. -/
theorem unprepare_spec (desc : JadardPanelDesc) :
    (jadard_unprepare desc).2 = 0
    ∧ (jadard_unprepare desc).1 =
      [Event.setGpio Gpio.reset 0, Event.msleep 120]
      ++ (if desc.reset_before_power_off_vcioo then
        [Event.setGpio Gpio.reset 1, Event.usleepRange 1000 2000] else [])
      ++ [Event.setGpio Gpio.vdd 0, Event.setGpio Gpio.vccio 0] := by
  exact ⟨rfl, rfl⟩

lemma lastGpio_append_right_none (l : Gpio) (a b : List Event)
    (hb : ∀ e ∈ b, gpioVal l e = none) :
    lastGpio l (a ++ b) = lastGpio l a := by
  unfold lastGpio
  rw [List.reverse_append]
  exact lastGpioRev_append l b.reverse a.reverse
    fun e he => hb e (List.mem_reverse.mp he)

/-- The only GPIO line the shipped init routine ever writes is dbg. -/
lemma shenzenInit_gpio_only_dbg (env : Nat → Int) (cdp : Int) (l : Gpio)
    (v : Nat)
    (h : Event.setGpio l v ∈ (shenzen_z34014_p30_365t_y1_init_cmds env cdp).1) :
    l = Gpio.dbg := by
  simp only [shenzen_z34014_p30_365t_y1_init_cmds, busRun_trace, BusState.init,
    List.nil_append, List.mem_append, List.mem_map] at h
  rcases h with (h | h) | h
  · simp at h
    rcases h with ⟨h, -⟩ | ⟨h, -⟩ <;> exact h
  · by_cases hc : cdp ≠ 0 <;> simp [hc] at h
    rcases h with ⟨h, -⟩ | ⟨h, -⟩ <;> exact h
  · rcases h with ⟨op, -, hop⟩
    exact absurd hop (busOp_event_ne_setGpio op l v)

/-- C9: if the init routine invoked by `jadard_prepare` returns an
error, `jadard_prepare` returns that error and performs no GPIO or
delay operation after the init routine's own events; provided the
init routine writes no GPIO line other than dbg, both power-enable
lines still hold the 1 they were given and the reset line still
holds the 0 of the last pulse transition — no rollback. -/
theorem prepare_init_failure_no_rollback
    (desc : JadardPanelDesc) (nopRet : Int) (env : Nat → Int) (cdp : Int)
    (h : nopRet = 0)
    (_hinit : (desc.init env cdp).2 ≠ 0)
    (hdbg : ∀ l v, Event.setGpio l v ∈ (desc.init env cdp).1 → l = Gpio.dbg) :
    (jadard_prepare desc nopRet env cdp).2 = (desc.init env cdp).2
    ∧ (jadard_prepare desc nopRet env cdp).1 =
      [Event.setGpio Gpio.vccio 1, Event.setGpio Gpio.vdd 1]
      ++ (if desc.vcioo_to_lp11_delay_ms ≠ 0 then
        [Event.msleep desc.vcioo_to_lp11_delay_ms] else [])
      ++ (if desc.lp11_before_reset then [Event.dcsNop] else [])
      ++ (if desc.lp11_to_reset_delay_ms ≠ 0 then
        [Event.msleep desc.lp11_to_reset_delay_ms] else [])
      ++ [Event.setGpio Gpio.reset 0, Event.msleep 5,
          Event.setGpio Gpio.reset 1, Event.msleep 10,
          Event.setGpio Gpio.reset 0, Event.msleep 130]
      ++ (desc.init env cdp).1
    ∧ lastGpio Gpio.vccio (jadard_prepare desc nopRet env cdp).1 = some 1
    ∧ lastGpio Gpio.vdd (jadard_prepare desc nopRet env cdp).1 = some 1
    ∧ lastGpio Gpio.reset (jadard_prepare desc nopRet env cdp).1 = some 0 := by
  have heq := jadard_prepare_eq desc nopRet env cdp h
  have htr : (jadard_prepare desc nopRet env cdp).1 =
      ([Event.setGpio Gpio.vccio 1, Event.setGpio Gpio.vdd 1]
      ++ (if desc.vcioo_to_lp11_delay_ms ≠ 0 then
        [Event.msleep desc.vcioo_to_lp11_delay_ms] else [])
      ++ (if desc.lp11_before_reset then [Event.dcsNop] else [])
      ++ (if desc.lp11_to_reset_delay_ms ≠ 0 then
        [Event.msleep desc.lp11_to_reset_delay_ms] else [])
      ++ [Event.setGpio Gpio.reset 0, Event.msleep 5,
          Event.setGpio Gpio.reset 1, Event.msleep 10,
          Event.setGpio Gpio.reset 0, Event.msleep 130])
      ++ (desc.init env cdp).1 := by
    rw [heq]
  have hlast : ∀ l : Gpio, l ≠ Gpio.dbg →
      ∀ e ∈ (desc.init env cdp).1, gpioVal l e = none := by
    intro l hl e he
    cases e with
    | setGpio l' v =>
      have hd := hdbg l' v he
      subst hd
      simp only [gpioVal]
      rw [if_neg fun hh => hl hh.symm]
    | msleep ms => rfl
    | usleepRange lo hi => rfl
    | dcsWrite c p => rfl
    | dcsNop => rfl
    | setDisplayOff => rfl
    | enterSleep => rfl
    | exitSleep => rfl
    | setDisplayOn => rfl
    | setTearOn m => rfl
  refine ⟨by rw [heq], by rw [htr], ?_, ?_, ?_⟩
  · rw [htr, lastGpio_append_right_none _ _ _ (hlast Gpio.vccio (by simp))]
    split_ifs <;> simp [lastGpio, lastGpioRev, gpioVal]
  · rw [htr, lastGpio_append_right_none _ _ _ (hlast Gpio.vdd (by simp))]
    split_ifs <;> simp [lastGpio, lastGpioRev, gpioVal]
  · rw [htr, lastGpio_append_right_none _ _ _ (hlast Gpio.reset (by simp))]
    split_ifs <;> simp [lastGpio, lastGpioRev, gpioVal]

/-- Witness for C9 at the shipped descriptor with every bus
transaction failing with -5: prepare returns the init routine's
error and the power lines are left asserted, reset left low. -/
theorem prepare_init_failure_no_rollback_w :
    (jadard_prepare shenzen_z34014_p30_365t_y1_desc 0 (fun _ => -5) 0).2 =
      (shenzen_z34014_p30_365t_y1_desc.init (fun _ => -5) 0).2
    ∧ lastGpio Gpio.vccio
        (jadard_prepare shenzen_z34014_p30_365t_y1_desc 0 (fun _ => -5) 0).1 = some 1
    ∧ lastGpio Gpio.vdd
        (jadard_prepare shenzen_z34014_p30_365t_y1_desc 0 (fun _ => -5) 0).1 = some 1
    ∧ lastGpio Gpio.reset
        (jadard_prepare shenzen_z34014_p30_365t_y1_desc 0 (fun _ => -5) 0).1 = some 0 := by
  have h := prepare_init_failure_no_rollback
    shenzen_z34014_p30_365t_y1_desc 0 (fun _ => -5) 0 rfl
    (by decide)
    (fun l v hm => shenzenInit_gpio_only_dbg (fun _ => -5) 0 l v hm)
  exact ⟨h.1, h.2.2.1, h.2.2.2.1, h.2.2.2.2⟩

lemma countP_isNop_map_event (ops : List BusOp) :
    (ops.map BusOp.event).countP isNop = 0 := by
  induction ops with
  | nil => rfl
  | cons op rest ih =>
    have hop : isNop op.event = false := by cases op <;> rfl
    simp [List.countP_cons, hop, ih]

/-- C10: the shipped descriptor leaves both option flags false and
all five delay fields zero; consequently prepare's trace is exactly
power-up, the bare reset pulse and the init routine — with no
zero-payload nop transaction anywhere in it and no settle delay
before the pulse — disable's trace is exactly "display off" then
"enter sleep" with no delays, and unprepare's trace has no extra
reset pulse before cutting power. -/
theorem shenzen_desc_defaults :
    shenzen_z34014_p30_365t_y1_desc.lp11_before_reset = false
    ∧ shenzen_z34014_p30_365t_y1_desc.reset_before_power_off_vcioo = false
    ∧ shenzen_z34014_p30_365t_y1_desc.vcioo_to_lp11_delay_ms = 0
    ∧ shenzen_z34014_p30_365t_y1_desc.lp11_to_reset_delay_ms = 0
    ∧ shenzen_z34014_p30_365t_y1_desc.backlight_off_to_display_off_delay_ms = 0
    ∧ shenzen_z34014_p30_365t_y1_desc.display_off_to_enter_sleep_delay_ms = 0
    ∧ shenzen_z34014_p30_365t_y1_desc.enter_sleep_to_reset_down_delay_ms = 0
    ∧ (∀ (nopRet : Int) (env : Nat → Int) (cdp : Int),
        (jadard_prepare shenzen_z34014_p30_365t_y1_desc nopRet env cdp).1 =
          [Event.setGpio Gpio.vccio 1, Event.setGpio Gpio.vdd 1,
           Event.setGpio Gpio.reset 0, Event.msleep 5,
           Event.setGpio Gpio.reset 1, Event.msleep 10,
           Event.setGpio Gpio.reset 0, Event.msleep 130]
          ++ (shenzen_z34014_p30_365t_y1_init_cmds env cdp).1
        ∧ ((jadard_prepare shenzen_z34014_p30_365t_y1_desc nopRet env cdp).1).countP
            isNop = 0)
    ∧ (∀ env : Nat → Int,
        (jadard_disable shenzen_z34014_p30_365t_y1_desc env).1 =
          [Event.setDisplayOff, Event.enterSleep])
    ∧ (jadard_unprepare shenzen_z34014_p30_365t_y1_desc).1 =
        [Event.setGpio Gpio.reset 0, Event.msleep 120,
         Event.setGpio Gpio.vdd 0, Event.setGpio Gpio.vccio 0] := by
  refine ⟨rfl, rfl, rfl, rfl, rfl, rfl, rfl, ?_, ?_, rfl⟩
  · intro nopRet env cdp
    have htr : (jadard_prepare shenzen_z34014_p30_365t_y1_desc nopRet env cdp).1 =
        [Event.setGpio Gpio.vccio 1, Event.setGpio Gpio.vdd 1,
         Event.setGpio Gpio.reset 0, Event.msleep 5,
         Event.setGpio Gpio.reset 1, Event.msleep 10,
         Event.setGpio Gpio.reset 0, Event.msleep 130]
        ++ (shenzen_z34014_p30_365t_y1_init_cmds env cdp).1 := by
      by_cases h2 : (shenzen_z34014_p30_365t_y1_init_cmds env cdp).2 = 0 <;>
        simp [jadard_prepare, shenzen_z34014_p30_365t_y1_desc, h2]
    refine ⟨htr, ?_⟩
    rw [htr, List.countP_append]
    have hinit : ((shenzen_z34014_p30_365t_y1_init_cmds env cdp).1).countP
        isNop = 0 := by
      rw [shenzenInit_trace env cdp,
        List.countP_append, countP_isNop_map_event]
      by_cases hc : cdp = 0 <;> simp [hc, isNop]
    rw [hinit]
    rfl
  · intro env
    simp [jadard_disable, disableOps, shenzen_z34014_p30_365t_y1_desc,
      busRun_trace, BusState.init, BusOp.event]

end Jadard
